import Mathlib

/-!
Shallow embedding of the rithmschool/express-dbs application: three parallel
Express variants (using-pg.js, using-knex.js, using-sequelize.js) serving two
read-only routes over a students/assignments schema, rendered through the two
nunjucks templates shown in the README (index.html, student.html).

The store is modelled as an explicit value of type `Db`; each SQL statement or
builder chain the application issues is an explicit function on `Db` that
returns the result rows together with the store state after execution (SELECT
statements leave the store unchanged).  The bound `$1` parameter of the detail
queries is a text value cast by the store to an integer: an unparseable value
is a store-side type error (query failure), exactly as with PostgreSQL.
Handlers return the rendered HTML (or a runtime failure), the list of lines
written via console.log during the request, and the store state afterwards.
-/

namespace ExpressDbs

/-- A row of the `students` table (id, fname, lname), per database.sql. -/
structure Student where
  id : Int
  fname : String
  lname : String
deriving DecidableEq

/-- A row of the `assignments` table (id, student_id, title, grade). -/
structure Assignment where
  id : Int
  student_id : Int
  title : String
  grade : Int
deriving DecidableEq

/-- The relational store: the two tables, rows in store order. -/
structure Db where
  students : List Student
  assignments : List Assignment
deriving DecidableEq

/-- Result row of `SELECT id, fname, lname FROM students`. -/
structure StudentListRow where
  id : Int
  fname : String
  lname : String
deriving DecidableEq

/-- Result row of `SELECT fname, lname FROM students WHERE id=$1`. -/
structure StudentDetailRow where
  fname : String
  lname : String
deriving DecidableEq

/-- Result row of `SELECT title, grade FROM assignments WHERE student_id=$1`. -/
structure AssignmentRow where
  title : String
  grade : Int
deriving DecidableEq

/-- A store-side query failure: the text bound to an integer-typed parameter
does not parse as an integer (PostgreSQL rejects it; the application performs
no validation of its own, spec section 7). -/
inductive QErr where
  | typeMismatch
deriving DecidableEq

/-- A runtime failure of a request: an unhandled query failure, or a
TypeError from dereferencing a property of an absent (null) record. -/
inductive RtErr where
  | queryFailure
  | nullDeref
deriving DecidableEq

/-- Decimal digit value of a character, when it is a digit. -/
def digitVal? (c : Char) : Option Nat :=
  if 48 ≤ c.toNat ∧ c.toNat ≤ 57 then some (c.toNat - 48) else none

/-- Value of a run of decimal digits, most significant first; any non-digit
character makes the run invalid. -/
def digitsAcc? : List Char → Nat → Option Nat
  | [], acc => some acc
  | c :: cs, acc =>
    match digitVal? c with
    | none => none
    | some d => digitsAcc? cs (acc * 10 + d)

/-- The store-side cast of a text value to the integer column type: an
optional leading minus sign followed by at least one decimal digit; anything
else is rejected by the store's type system. -/
def pgIntCast (s : String) : Option Int :=
  match s.data with
  | [] => none
  | c :: cs =>
    if c = '-' then
      match cs with
      | [] => none
      | _ :: _ => (digitsAcc? cs 0).map (fun n => -(n : Int))
    else (digitsAcc? (c :: cs) 0).map (fun n => (n : Int))

/-- Binding of the raw `req.params.id` string to the `$1` parameter of an
integer-typed column comparison: the store casts the text or rejects the
query with a type error.  The application performs no validation or
coercion of its own. -/
def bindInt (p : String) : Except QErr Int :=
  match pgIntCast p with
  | some n => Except.ok n
  | none => Except.error QErr.typeMismatch

/-- Store execution of `SELECT id, fname, lname FROM students`
(also the compilation of the knex chain `select('id','fname','lname')
.from('students')`).  A SELECT leaves the store unchanged. -/
def execSelectStudentsAll (db : Db) : List StudentListRow × Db :=
  (db.students.map (fun s => StudentListRow.mk s.id s.fname s.lname), db)

/-- Store execution of `SELECT fname, lname FROM students WHERE id=$1` with
the raw request string bound to `$1` (also the knex chain
`select('fname','lname').from('students').where('id', id)`). -/
def execSelectStudentById (p : String) (db : Db) :
    Except QErr (List StudentDetailRow × Db) :=
  (bindInt p).map (fun n =>
    ((db.students.filter (fun s => s.id == n)).map
      (fun s => StudentDetailRow.mk s.fname s.lname), db))

/-- Store execution of `SELECT title, grade FROM assignments WHERE
student_id=$1` with the raw request string bound to `$1` (also the knex chain
`select('title','grade').from('assignments').where('student_id', id)`). -/
def execSelectAssignmentsByParam (p : String) (db : Db) :
    Except QErr (List AssignmentRow × Db) :=
  (bindInt p).map (fun n =>
    ((db.assignments.filter (fun a => a.student_id == n)).map
      (fun a => AssignmentRow.mk a.title a.grade), db))

/-- Store execution of the query issued by Sequelize for
`student.getAssignments()`: the assignments whose student_id equals the
(already integer) id of the fetched student record. -/
def execSelectAssignmentsByIntId (n : Int) (db : Db) :
    List AssignmentRow × Db :=
  ((db.assignments.filter (fun a => a.student_id == n)).map
    (fun a => AssignmentRow.mk a.title a.grade), db)

/-- Store execution of the query issued by `Student.findById(id)`: the first
students row whose id equals the bound parameter, or an absent record. -/
def execFindStudentById (p : String) (db : Db) :
    Except QErr (Option Student × Db) :=
  (bindInt p).map (fun n =>
    ((db.students.filter (fun s => s.id == n)).head?, db))

/-- The derived fullName getter of the Sequelize Student model
(using-sequelize.js lines 24-27): computed from fname and lname, not stored. -/
def fullName (s : Student) : String :=
  s.fname ++ " " ++ s.lname

/-- Rendering of one `<li>` of templates/index.html for one student row. -/
def renderStudentLi (s : StudentListRow) : String :=
  "<li><a href=\"/student/" ++ toString s.id ++ "\">"
    ++ s.fname ++ " " ++ s.lname ++ "</a></li>"

/-- Rendering of templates/index.html with the `students` collection. -/
def renderIndex (students : List StudentListRow) : String :=
  "<!DOCTYPE html><html><head><title>Students</title></head><body>"
    ++ "<h1>Students</h1><ul>"
    ++ String.join (students.map renderStudentLi)
    ++ "</ul></body></html>"

/-- Interpolation of `student.fname` in templates/student.html: nunjucks
renders a lookup on an absent record as the empty string. -/
def fnameText (st : Option StudentDetailRow) : String :=
  match st with
  | some s => s.fname
  | none => ""

/-- Interpolation of `student.lname` in templates/student.html. -/
def lnameText (st : Option StudentDetailRow) : String :=
  match st with
  | some s => s.lname
  | none => ""

/-- Rendering of one `<li>` of templates/student.html for one assignment. -/
def renderAssignmentLi (a : AssignmentRow) : String :=
  "<li>" ++ a.title ++ " got an " ++ toString a.grade ++ "</li>"

/-- Rendering of templates/student.html with the possibly-absent `student`
and the `assignments` collection. -/
def renderStudent (st : Option StudentDetailRow) (asgs : List AssignmentRow) :
    String :=
  "<!DOCTYPE html><html><head><title>" ++ fnameText st ++ " " ++ lnameText st
    ++ "</title></head><body><h1>" ++ fnameText st ++ " " ++ lnameText st
    ++ "</h1><ul>"
    ++ String.join (asgs.map renderAssignmentLi)
    ++ "</ul></body></html>"

instance {ε α : Type} [DecidableEq ε] [DecidableEq α] :
    DecidableEq (Except ε α) := fun x y =>
  match x, y with
  | Except.ok a, Except.ok b =>
      if h : a = b then isTrue (by rw [h])
      else isFalse (by intro hc; cases hc; exact h rfl)
  | Except.error a, Except.error b =>
      if h : a = b then isTrue (by rw [h])
      else isFalse (by intro hc; cases hc; exact h rfl)
  | Except.ok _, Except.error _ => isFalse (by intro hc; cases hc)
  | Except.error _, Except.ok _ => isFalse (by intro hc; cases hc)

/-- The outcome of handling one HTTP request: the rendered HTML page (HTTP
200) or an unhandled runtime failure, the console.log lines written while
handling the request, and the store state afterwards. -/
structure HandlerOut where
  response : Except RtErr String
  logs : List String
  store : Db
deriving DecidableEq

/-- The seed data inserted by database.sql: 2 students, 4 assignments. -/
def seedDb : Db :=
  { students :=
      [Student.mk 1 "Sylvia" "Plath", Student.mk 2 "Anne" "Sexton"],
    assignments :=
      [Assignment.mk 1 1 "Essay #1" 85,
       Assignment.mk 2 1 "Poem #1" 90,
       Assignment.mk 3 2 "Short Story" 80,
       Assignment.mk 4 2 "Long Poem" 87] }

/-- using-pg.js lines 14-20, `GET /`: run the students query and render
index.html with the rows.  No console.log in the handler. -/
def pgIndexH (db : Db) : HandlerOut :=
  let (students, db1) := execSelectStudentsAll db
  HandlerOut.mk (Except.ok (renderIndex students)) [] db1

/-- using-pg.js lines 22-33, the data handed to `res.render('student.html',
...)`: `student` is `rez.rows[0]` of the WHERE id=$1 query (absent when no
row), `assignments` is the full row list of the WHERE student_id=$1 query;
both queries bind the raw `req.params.id` string. -/
def pgStudentViewData (db : Db) (idParam : String) :
    Except QErr ((Option StudentDetailRow × List AssignmentRow) × Db) :=
  match execSelectStudentById idParam db with
  | Except.error e => Except.error e
  | Except.ok (rows, db1) =>
    match execSelectAssignmentsByParam idParam db1 with
    | Except.error e => Except.error e
    | Except.ok (asgs, db2) => Except.ok ((rows.head?, asgs), db2)

/-- using-pg.js lines 22-34, `GET /student/:id`: a query failure rejects the
handler promise (unhandled failure); otherwise render student.html with the
possibly-absent student and the assignment rows. -/
def pgStudentH (db : Db) (idParam : String) : HandlerOut :=
  match pgStudentViewData db idParam with
  | Except.error _ => HandlerOut.mk (Except.error RtErr.queryFailure) [] db
  | Except.ok ((st, asgs), db2) =>
      HandlerOut.mk (Except.ok (renderStudent st asgs)) [] db2

/-- using-knex.js lines 14-20, `GET /`: the builder chain
`knex.select('id','fname','lname').from('students')`, rendered with
index.html. -/
def knexIndexH (db : Db) : HandlerOut :=
  let (students, db1) := execSelectStudentsAll db
  HandlerOut.mk (Except.ok (renderIndex students)) [] db1

/-- using-knex.js lines 22-33, the data handed to `res.render`: `student` is
element `[0]` of the `where('id', id)` chain result, `assignments` the full
result of the `where('student_id', id)` chain; both bind the raw id string. -/
def knexStudentViewData (db : Db) (idParam : String) :
    Except QErr ((Option StudentDetailRow × List AssignmentRow) × Db) :=
  match execSelectStudentById idParam db with
  | Except.error e => Except.error e
  | Except.ok (rows, db1) =>
    match execSelectAssignmentsByParam idParam db1 with
    | Except.error e => Except.error e
    | Except.ok (asgs, db2) => Except.ok ((rows.head?, asgs), db2)

/-- using-knex.js lines 22-34, `GET /student/:id`. -/
def knexStudentH (db : Db) (idParam : String) : HandlerOut :=
  match knexStudentViewData db idParam with
  | Except.error _ => HandlerOut.mk (Except.error RtErr.queryFailure) [] db
  | Except.ok ((st, asgs), db2) =>
      HandlerOut.mk (Except.ok (renderStudent st asgs)) [] db2

/-- using-sequelize.js lines 45-49, `GET /`: `Student.findAll()` returns
every students row (the model exposes id, fname, lname), rendered with
index.html. -/
def seqIndexH (db : Db) : HandlerOut :=
  HandlerOut.mk
    (Except.ok (renderIndex
      (db.students.map (fun s => StudentListRow.mk s.id s.fname s.lname))))
    [] db

/-- using-sequelize.js lines 51-58, `GET /student/:id`:
`Student.findById(id)` with the raw id string; then
`console.log("Full name is", student.fullName)` — evaluating
`student.fullName` on an absent (null) student throws a TypeError before
anything is logged; on a found student the line is logged, then
`student.getAssignments()` fetches the assignments of that student's id and
student.html is rendered (the template reads fname and lname). -/
def seqStudentH (db : Db) (idParam : String) : HandlerOut :=
  match execFindStudentById idParam db with
  | Except.error _ => HandlerOut.mk (Except.error RtErr.queryFailure) [] db
  | Except.ok (none, db1) => HandlerOut.mk (Except.error RtErr.nullDeref) [] db1
  | Except.ok (some s, db1) =>
      let (asgs, db2) := execSelectAssignmentsByIntId s.id db1
      HandlerOut.mk
        (Except.ok (renderStudent (some (StudentDetailRow.mk s.fname s.lname)) asgs))
        ["Full name is " ++ fullName s] db2

/-! Characterizations of the store operations and handlers, by case analysis
on the store-side cast of the bound parameter. -/

theorem bindInt_eq_ok (p : String) (n : Int) (h : pgIntCast p = some n) :
    bindInt p = Except.ok n := by
  unfold bindInt; rw [h]

theorem bindInt_eq_error (p : String) (h : pgIntCast p = none) :
    bindInt p = Except.error QErr.typeMismatch := by
  unfold bindInt; rw [h]

theorem execSelectStudentById_eq (p : String) (db : Db) :
    execSelectStudentById p db =
      match pgIntCast p with
      | none => Except.error QErr.typeMismatch
      | some n => Except.ok
          ((db.students.filter (fun s => s.id == n)).map
            (fun s => StudentDetailRow.mk s.fname s.lname), db) := by
  unfold execSelectStudentById bindInt
  cases pgIntCast p <;> rfl

theorem execSelectAssignmentsByParam_eq (p : String) (db : Db) :
    execSelectAssignmentsByParam p db =
      match pgIntCast p with
      | none => Except.error QErr.typeMismatch
      | some n => Except.ok
          ((db.assignments.filter (fun a => a.student_id == n)).map
            (fun a => AssignmentRow.mk a.title a.grade), db) := by
  unfold execSelectAssignmentsByParam bindInt
  cases pgIntCast p <;> rfl

theorem execFindStudentById_eq (p : String) (db : Db) :
    execFindStudentById p db =
      match pgIntCast p with
      | none => Except.error QErr.typeMismatch
      | some n =>
          Except.ok ((db.students.filter (fun s => s.id == n)).head?, db) := by
  unfold execFindStudentById bindInt
  cases pgIntCast p <;> rfl

theorem pgStudentViewData_eq (db : Db) (p : String) :
    pgStudentViewData db p =
      match pgIntCast p with
      | none => Except.error QErr.typeMismatch
      | some n => Except.ok
          ((((db.students.filter (fun s => s.id == n)).map
              (fun s => StudentDetailRow.mk s.fname s.lname)).head?,
            (db.assignments.filter (fun a => a.student_id == n)).map
              (fun a => AssignmentRow.mk a.title a.grade)), db) := by
  unfold pgStudentViewData execSelectStudentById execSelectAssignmentsByParam
    bindInt
  cases pgIntCast p <;> rfl

theorem knexStudentViewData_eq_pg (db : Db) (p : String) :
    knexStudentViewData db p = pgStudentViewData db p := rfl

theorem knexStudentH_eq_pg (db : Db) (p : String) :
    knexStudentH db p = pgStudentH db p := rfl

theorem knexIndexH_eq_pg (db : Db) : knexIndexH db = pgIndexH db := rfl

theorem pgStudentH_eq (db : Db) (p : String) :
    pgStudentH db p =
      match pgIntCast p with
      | none => HandlerOut.mk (Except.error RtErr.queryFailure) [] db
      | some n => HandlerOut.mk
          (Except.ok (renderStudent
            (((db.students.filter (fun s => s.id == n)).map
              (fun s => StudentDetailRow.mk s.fname s.lname)).head?)
            ((db.assignments.filter (fun a => a.student_id == n)).map
              (fun a => AssignmentRow.mk a.title a.grade)))) [] db := by
  unfold pgStudentH
  rw [pgStudentViewData_eq]
  cases pgIntCast p <;> rfl

theorem seqStudentH_eq (db : Db) (p : String) :
    seqStudentH db p =
      match pgIntCast p with
      | none => HandlerOut.mk (Except.error RtErr.queryFailure) [] db
      | some n =>
        match (db.students.filter (fun s => s.id == n)).head? with
        | none => HandlerOut.mk (Except.error RtErr.nullDeref) [] db
        | some s => HandlerOut.mk
            (Except.ok (renderStudent
              (some (StudentDetailRow.mk s.fname s.lname))
              ((db.assignments.filter (fun a => a.student_id == s.id)).map
                (fun a => AssignmentRow.mk a.title a.grade))))
            ["Full name is " ++ fullName s] db := by
  unfold seqStudentH
  rw [execFindStudentById_eq]
  cases pgIntCast p with
  | none => rfl
  | some n =>
    cases h : (db.students.filter (fun s => s.id == n)).head? <;>
      simp [h, execSelectAssignmentsByIntId]

theorem pgIndexH_store (db : Db) : (pgIndexH db).store = db := rfl

theorem knexIndexH_store (db : Db) : (knexIndexH db).store = db := rfl

theorem seqIndexH_store (db : Db) : (seqIndexH db).store = db := rfl

theorem pgStudentH_store (db : Db) (p : String) :
    (pgStudentH db p).store = db := by
  rw [pgStudentH_eq]
  cases pgIntCast p <;> rfl

theorem knexStudentH_store (db : Db) (p : String) :
    (knexStudentH db p).store = db := by
  rw [knexStudentH_eq_pg]; exact pgStudentH_store db p

theorem seqStudentH_store (db : Db) (p : String) :
    (seqStudentH db p).store = db := by
  rw [seqStudentH_eq]
  cases pgIntCast p with
  | none => rfl
  | some n =>
    cases h : (db.students.filter (fun s => s.id == n)).head? <;> simp [h]

theorem execSelectStudentById_some (p : String) (db : Db) (n : Int)
    (h : pgIntCast p = some n) :
    execSelectStudentById p db = Except.ok
      ((db.students.filter (fun s => s.id == n)).map
        (fun s => StudentDetailRow.mk s.fname s.lname), db) := by
  rw [execSelectStudentById_eq, h]

theorem execSelectStudentById_none (p : String) (db : Db)
    (h : pgIntCast p = none) :
    execSelectStudentById p db = Except.error QErr.typeMismatch := by
  rw [execSelectStudentById_eq, h]

theorem execSelectAssignmentsByParam_some (p : String) (db : Db) (n : Int)
    (h : pgIntCast p = some n) :
    execSelectAssignmentsByParam p db = Except.ok
      ((db.assignments.filter (fun a => a.student_id == n)).map
        (fun a => AssignmentRow.mk a.title a.grade), db) := by
  rw [execSelectAssignmentsByParam_eq, h]

theorem execSelectAssignmentsByParam_none (p : String) (db : Db)
    (h : pgIntCast p = none) :
    execSelectAssignmentsByParam p db = Except.error QErr.typeMismatch := by
  rw [execSelectAssignmentsByParam_eq, h]

theorem execFindStudentById_some (p : String) (db : Db) (n : Int)
    (h : pgIntCast p = some n) :
    execFindStudentById p db =
      Except.ok ((db.students.filter (fun s => s.id == n)).head?, db) := by
  rw [execFindStudentById_eq, h]

theorem execFindStudentById_none (p : String) (db : Db)
    (h : pgIntCast p = none) :
    execFindStudentById p db = Except.error QErr.typeMismatch := by
  rw [execFindStudentById_eq, h]

theorem pgStudentViewData_some (db : Db) (p : String) (n : Int)
    (h : pgIntCast p = some n) :
    pgStudentViewData db p = Except.ok
      ((((db.students.filter (fun s => s.id == n)).map
          (fun s => StudentDetailRow.mk s.fname s.lname)).head?,
        (db.assignments.filter (fun a => a.student_id == n)).map
          (fun a => AssignmentRow.mk a.title a.grade)), db) := by
  rw [pgStudentViewData_eq, h]

theorem pgStudentViewData_none (db : Db) (p : String)
    (h : pgIntCast p = none) :
    pgStudentViewData db p = Except.error QErr.typeMismatch := by
  rw [pgStudentViewData_eq, h]

theorem pgStudentH_some (db : Db) (p : String) (n : Int)
    (h : pgIntCast p = some n) :
    pgStudentH db p = HandlerOut.mk
      (Except.ok (renderStudent
        (((db.students.filter (fun s => s.id == n)).map
          (fun s => StudentDetailRow.mk s.fname s.lname)).head?)
        ((db.assignments.filter (fun a => a.student_id == n)).map
          (fun a => AssignmentRow.mk a.title a.grade)))) [] db := by
  rw [pgStudentH_eq, h]

theorem pgStudentH_none (db : Db) (p : String) (h : pgIntCast p = none) :
    pgStudentH db p
      = HandlerOut.mk (Except.error RtErr.queryFailure) [] db := by
  rw [pgStudentH_eq, h]

theorem pgStudentH_logs (db : Db) (p : String) :
    (pgStudentH db p).logs = [] := by
  rw [pgStudentH_eq]
  cases pgIntCast p <;> rfl

theorem seqStudentH_found (db : Db) (p : String) (n : Int) (s : Student)
    (h : pgIntCast p = some n)
    (hh : (db.students.filter (fun t => t.id == n)).head? = some s) :
    seqStudentH db p = HandlerOut.mk
      (Except.ok (renderStudent
        (some (StudentDetailRow.mk s.fname s.lname))
        ((db.assignments.filter (fun a => a.student_id == s.id)).map
          (fun a => AssignmentRow.mk a.title a.grade))))
      ["Full name is " ++ fullName s] db := by
  rw [seqStudentH_eq, h]
  simp [hh]

theorem seqStudentH_absent (db : Db) (p : String) (n : Int)
    (h : pgIntCast p = some n)
    (hh : (db.students.filter (fun t => t.id == n)).head? = none) :
    seqStudentH db p
      = HandlerOut.mk (Except.error RtErr.nullDeref) [] db := by
  rw [seqStudentH_eq, h]
  simp [hh]

/-- A member of a filtered students list has the filtered id. -/
theorem mem_filter_student_id (db : Db) (n : Int) (s : Student)
    (h : s ∈ db.students.filter (fun s => s.id == n)) :
    s ∈ db.students ∧ s.id = n := by
  rw [List.mem_filter] at h
  exact ⟨h.1, by simpa [beq_iff_eq] using h.2⟩

/-- The head of a list, when present, is a member. -/
theorem head?_mem_of_eq_some {α : Type} (l : List α) (a : α)
    (h : l.head? = some a) : a ∈ l := by
  rw [List.head?_eq_some_iff] at h
  obtain ⟨t, ht⟩ := h
  rw [ht]
  exact List.mem_cons_self a t

/-! Claim theorems. -/

/-- C1: for GET /student/999 against the seeded store (no student has id
999), the pg and knex handlers complete with HTTP 200, rendering the detail
view with an absent student and an empty assignment list; the sequelize
handler however fails with an unhandled TypeError, because
`console.log("Full name is", student.fullName)` dereferences the absent
(null) lookup result.  This evaluates every variant at the failing input. -/
theorem c1_absent_student_behavior :
    (pgStudentH seedDb "999").response = Except.ok (renderStudent none []) ∧
    (knexStudentH seedDb "999").response = Except.ok (renderStudent none []) ∧
    (seqStudentH seedDb "999").response = Except.error RtErr.nullDeref := by
  refine ⟨?_, ?_, ?_⟩ <;> decide

/-- C3 counterexample: on input id 999 with the seeded store, the pg variant
hands the view an absent student and empty assignment list and renders HTTP
200, while the sequelize variant produces no view data at all (it fails with
a TypeError), so the two variants' externally observable results differ for
this identical input. -/
theorem c3_counterexample :
    (pgStudentH seedDb "999").response = Except.ok (renderStudent none []) ∧
    (seqStudentH seedDb "999").response = Except.error RtErr.nullDeref ∧
    (pgStudentH seedDb "999").response ≠ (seqStudentH seedDb "999").response := by
  refine ⟨?_, ?_, ?_⟩ <;> decide

/-- C4 counterexample: handling GET /student/1 in the sequelize variant
writes a console.log line (the student's full name), so a request does log
beyond the startup notice. -/
theorem c4_counterexample :
    (seqStudentH seedDb "1").logs = ["Full name is Sylvia Plath"] ∧
    (seqStudentH seedDb "1").logs ≠ [] := by
  refine ⟨?_, ?_⟩ <;> decide

/-- C7: the Sequelize Student model's derived fullName getter equals the
first name, a space, and the last name, computed from the two stored name
fields (the id plays no part and no separate full-name field is stored). -/
theorem c7_fullName_derived (i : Int) (fn ln : String) :
    fullName (Student.mk i fn ln) = fn ++ " " ++ ln := rfl

/-- C8: every route of every variant is deterministic and mutation-free:
handling a request leaves the store unchanged, and repeating the identical
request against the resulting store yields a byte-identical response. -/
theorem c8_idempotent_requests (db : Db) (idParam : String) :
    (pgIndexH db).store = db ∧
    (pgIndexH ((pgIndexH db).store)).response = (pgIndexH db).response ∧
    (pgStudentH db idParam).store = db ∧
    (pgStudentH ((pgStudentH db idParam).store) idParam).response
      = (pgStudentH db idParam).response ∧
    (knexIndexH db).store = db ∧
    (knexIndexH ((knexIndexH db).store)).response = (knexIndexH db).response ∧
    (knexStudentH db idParam).store = db ∧
    (knexStudentH ((knexStudentH db idParam).store) idParam).response
      = (knexStudentH db idParam).response ∧
    (seqIndexH db).store = db ∧
    (seqIndexH ((seqIndexH db).store)).response = (seqIndexH db).response ∧
    (seqStudentH db idParam).store = db ∧
    (seqStudentH ((seqStudentH db idParam).store) idParam).response
      = (seqStudentH db idParam).response := by
  refine ⟨pgIndexH_store db, by rw [pgIndexH_store],
    pgStudentH_store db idParam, by rw [pgStudentH_store],
    knexIndexH_store db, by rw [knexIndexH_store],
    knexStudentH_store db idParam, by rw [knexStudentH_store],
    seqIndexH_store db, by rw [seqIndexH_store],
    seqStudentH_store db idParam, by rw [seqStudentH_store]⟩

/-- C2: the id path parameter is only ever bound as a query parameter, so
for every id string (numeric, non-numeric, or SQL metacharacters) and every
store state: any rows the two detail queries return come solely from records
whose key equals the store-side integer reading of the bound value — never
another student's rows — and an id the store cannot cast to an integer makes
the query fail cleanly with no rows at all. -/
theorem c2_parameter_binding (db : Db) (idParam : String) :
    (∀ rows db2,
      execSelectAssignmentsByParam idParam db = Except.ok (rows, db2) →
      ∃ n, pgIntCast idParam = some n ∧
        ∀ r ∈ rows, ∃ a, a ∈ db.assignments ∧ a.student_id = n ∧
          r.title = a.title ∧ r.grade = a.grade) ∧
    (∀ rows db2,
      execSelectStudentById idParam db = Except.ok (rows, db2) →
      ∃ n, pgIntCast idParam = some n ∧
        ∀ r ∈ rows, ∃ s, s ∈ db.students ∧ s.id = n ∧
          r.fname = s.fname ∧ r.lname = s.lname) ∧
    (pgIntCast idParam = none →
      (∃ e, execSelectAssignmentsByParam idParam db = Except.error e) ∧
      (∃ e, execSelectStudentById idParam db = Except.error e)) := by
  refine ⟨?_, ?_, ?_⟩
  · intro rows db2 h
    cases hp : pgIntCast idParam with
    | none => rw [execSelectAssignmentsByParam_none idParam db hp] at h; cases h
    | some n =>
      rw [execSelectAssignmentsByParam_some idParam db n hp] at h
      simp only [Except.ok.injEq, Prod.mk.injEq] at h
      obtain ⟨h1, -⟩ := h
      subst h1
      refine ⟨n, rfl, ?_⟩
      intro r hr
      rw [List.mem_map] at hr
      obtain ⟨a, ha, hra⟩ := hr
      obtain ⟨ha1, ha2⟩ := List.mem_filter.mp ha
      exact ⟨a, ha1, beq_iff_eq.mp ha2, by rw [← hra], by rw [← hra]⟩
  · intro rows db2 h
    cases hp : pgIntCast idParam with
    | none => rw [execSelectStudentById_none idParam db hp] at h; cases h
    | some n =>
      rw [execSelectStudentById_some idParam db n hp] at h
      simp only [Except.ok.injEq, Prod.mk.injEq] at h
      obtain ⟨h1, -⟩ := h
      subst h1
      refine ⟨n, rfl, ?_⟩
      intro r hr
      rw [List.mem_map] at hr
      obtain ⟨s, hs, hrs⟩ := hr
      obtain ⟨hs1, hs2⟩ := List.mem_filter.mp hs
      exact ⟨s, hs1, beq_iff_eq.mp hs2, by rw [← hrs], by rw [← hrs]⟩
  · intro hp
    exact ⟨⟨QErr.typeMismatch, execSelectAssignmentsByParam_none idParam db hp⟩,
      ⟨QErr.typeMismatch, execSelectStudentById_none idParam db hp⟩⟩

/-- C2 witness: the classic injection string is rejected by the store-side
cast, so both detail queries fail with no rows rather than returning an
altered result set. -/
theorem c2_witness :
    (pgIntCast "1 OR 1=1" = none) ∧
    ((∃ e, execSelectAssignmentsByParam "1 OR 1=1" seedDb
        = Except.error e) ∧
      (∃ e, execSelectStudentById "1 OR 1=1" seedDb = Except.error e)) :=
  ⟨by decide, (c2_parameter_binding seedDb "1 OR 1=1").2.2 (by decide)⟩

/-- C3 amended: the pg and knex variants are observably identical on every
input, and the index route of the sequelize variant matches them; the
sequelize detail route matches them whenever the requested id resolves to an
existing student (on an absent student it diverges, see the
counterexample). -/
theorem c3_variant_equivalence (db : Db) (idParam : String) :
    knexIndexH db = pgIndexH db ∧
    (seqIndexH db).response = (pgIndexH db).response ∧
    knexStudentH db idParam = pgStudentH db idParam ∧
    (∀ s, execFindStudentById idParam db = Except.ok (some s, db) →
      (seqStudentH db idParam).response = (pgStudentH db idParam).response) := by
  refine ⟨knexIndexH_eq_pg db, rfl, knexStudentH_eq_pg db idParam, ?_⟩
  intro s h
  cases hp : pgIntCast idParam with
  | none => rw [execFindStudentById_none idParam db hp] at h; cases h
  | some n =>
    rw [execFindStudentById_some idParam db n hp] at h
    simp only [Except.ok.injEq, Prod.mk.injEq] at h
    obtain ⟨hhead, -⟩ := h
    have hsmem := head?_mem_of_eq_some _ _ hhead
    have hsid : s.id = n := (mem_filter_student_id db n s hsmem).2
    have h1 : ((db.students.filter (fun t => t.id == n)).map
        (fun t => StudentDetailRow.mk t.fname t.lname)).head?
        = some (StudentDetailRow.mk s.fname s.lname) := by
      rw [List.head?_map, hhead]
      rfl
    rw [seqStudentH_found db idParam n s hp hhead,
      pgStudentH_some db idParam n hp]
    simp only []
    rw [h1, hsid]

/-- C3 witness: on id 1, which resolves to the seeded student Sylvia Plath,
the sequelize variant's detail response is byte-identical to the pg
variant's. -/
theorem c3_equivalence_witness :
    (seqStudentH seedDb "1").response = (pgStudentH seedDb "1").response :=
  (c3_variant_equivalence seedDb "1").2.2.2
    (Student.mk 1 "Sylvia" "Plath") (by decide)

/-- C4 amended: handling any request against any store state issues no store
write (the store afterwards equals the store before) and the pg and knex
handlers write no log line; the sequelize index handler writes none either,
but the sequelize detail handler writes one console.log line — the student's
full name — on every request that finds the student. -/
theorem c4_frame_and_logging (db : Db) (idParam : String) :
    (pgIndexH db).store = db ∧ (pgIndexH db).logs = [] ∧
    (pgStudentH db idParam).store = db ∧
    (pgStudentH db idParam).logs = [] ∧
    (knexIndexH db).store = db ∧ (knexIndexH db).logs = [] ∧
    (knexStudentH db idParam).store = db ∧
    (knexStudentH db idParam).logs = [] ∧
    (seqIndexH db).store = db ∧ (seqIndexH db).logs = [] ∧
    (seqStudentH db idParam).store = db ∧
    ((seqStudentH db idParam).logs = [] ∨
      ∃ s, (seqStudentH db idParam).logs
        = ["Full name is " ++ fullName s]) := by
  refine ⟨pgIndexH_store db, rfl, pgStudentH_store db idParam,
    pgStudentH_logs db idParam, knexIndexH_store db, rfl,
    knexStudentH_store db idParam, ?_, seqIndexH_store db, rfl,
    seqStudentH_store db idParam, ?_⟩
  · rw [knexStudentH_eq_pg]
    exact pgStudentH_logs db idParam
  · cases hp : pgIntCast idParam with
    | none =>
      left
      rw [seqStudentH_eq, hp]
    | some n =>
      cases hh : (db.students.filter (fun t => t.id == n)).head? with
      | none =>
        left
        rw [seqStudentH_absent db idParam n hp hh]
      | some s =>
        right
        exact ⟨s, by rw [seqStudentH_found db idParam n s hp hh]⟩

/-- C5: the list operation behind GET / hands the view the sequence of all
student rows in store order — same ids, first names and last names, row for
row — each row carrying exactly the fields id, fname, lname; every variant
renders exactly that sequence. -/
theorem c5_list_students (db : Db) :
    (execSelectStudentsAll db).1.map StudentListRow.id
      = db.students.map Student.id ∧
    (execSelectStudentsAll db).1.map StudentListRow.fname
      = db.students.map Student.fname ∧
    (execSelectStudentsAll db).1.map StudentListRow.lname
      = db.students.map Student.lname ∧
    (pgIndexH db).response
      = Except.ok (renderIndex (execSelectStudentsAll db).1) ∧
    (knexIndexH db).response
      = Except.ok (renderIndex (execSelectStudentsAll db).1) ∧
    (seqIndexH db).response
      = Except.ok (renderIndex (execSelectStudentsAll db).1) := by
  refine ⟨?_, ?_, ?_, rfl, rfl, rfl⟩ <;>
    simp only [execSelectStudentsAll, List.map_map] <;> rfl

/-- C6: for every id the store can cast to an integer n, the assignment
collection the pg and knex detail handlers hand to the view is exactly the
records of the assignments table whose student_id equals n — exposing title
and grade — and is empty when no such record exists; the rendered response
uses exactly that collection. -/
theorem c6_assignments_exact (db : Db) (idParam : String) (n : Int)
    (hn : pgIntCast idParam = some n) :
    ∃ st asgs,
      pgStudentViewData db idParam = Except.ok ((st, asgs), db) ∧
      knexStudentViewData db idParam = Except.ok ((st, asgs), db) ∧
      (∀ r, r ∈ asgs ↔ ∃ a, a ∈ db.assignments ∧ a.student_id = n ∧
        r.title = a.title ∧ r.grade = a.grade) ∧
      ((∀ a, a ∈ db.assignments → a.student_id ≠ n) → asgs = []) ∧
      (pgStudentH db idParam).response = Except.ok (renderStudent st asgs) ∧
      (knexStudentH db idParam).response
        = Except.ok (renderStudent st asgs) := by
  refine ⟨_, _, pgStudentViewData_some db idParam n hn, ?_, ?_, ?_, ?_, ?_⟩
  · rw [knexStudentViewData_eq_pg]
    exact pgStudentViewData_some db idParam n hn
  · intro r
    constructor
    · intro hr
      rw [List.mem_map] at hr
      obtain ⟨a, ha, hra⟩ := hr
      obtain ⟨ha1, ha2⟩ := List.mem_filter.mp ha
      exact ⟨a, ha1, beq_iff_eq.mp ha2, by rw [← hra], by rw [← hra]⟩
    · rintro ⟨a, ha, han, ht, hg⟩
      rw [List.mem_map]
      refine ⟨a, List.mem_filter.mpr ⟨ha, beq_iff_eq.mpr han⟩, ?_⟩
      rw [← ht, ← hg]
  · intro hno
    have hf : db.assignments.filter (fun a => a.student_id == n) = [] := by
      rw [List.filter_eq_nil_iff]
      intro a ha
      simp only [beq_iff_eq]
      exact hno a ha
    rw [hf]
    rfl
  · rw [pgStudentH_some db idParam n hn]
  · rw [knexStudentH_eq_pg, pgStudentH_some db idParam n hn]

/-- C6 witness: id 999 casts to 999, no seeded assignment has student_id
999, and the view receives the empty collection. -/
theorem c6_witness :
    (pgIntCast "999" = some 999) ∧
    (∃ st asgs,
      pgStudentViewData seedDb "999" = Except.ok ((st, asgs), seedDb) ∧
      knexStudentViewData seedDb "999" = Except.ok ((st, asgs), seedDb) ∧
      (∀ r, r ∈ asgs ↔ ∃ a, a ∈ seedDb.assignments ∧ a.student_id = 999 ∧
        r.title = a.title ∧ r.grade = a.grade) ∧
      ((∀ a, a ∈ seedDb.assignments → a.student_id ≠ 999) → asgs = []) ∧
      (pgStudentH seedDb "999").response
        = Except.ok (renderStudent st asgs) ∧
      (knexStudentH seedDb "999").response
        = Except.ok (renderStudent st asgs)) :=
  ⟨by decide, c6_assignments_exact seedDb "999" 999 (by decide)⟩

/-- C9: for every id the store casts to an integer, the pg and knex detail
handlers select as student exactly the head of the student query's row list
(absent when the list is empty, the first row even when the store returns
several), then unconditionally render HTTP 200 with the assignment rows —
the handler never branches on whether the student was found. -/
theorem c9_first_row_unconditional (db : Db) (idParam : String) (n : Int)
    (hn : pgIntCast idParam = some n) :
    pgStudentH db idParam = HandlerOut.mk
      (Except.ok (renderStudent
        (((db.students.filter (fun s => s.id == n)).map
          (fun s => StudentDetailRow.mk s.fname s.lname)).head?)
        ((db.assignments.filter (fun a => a.student_id == n)).map
          (fun a => AssignmentRow.mk a.title a.grade)))) [] db ∧
    knexStudentH db idParam = pgStudentH db idParam :=
  ⟨pgStudentH_some db idParam n hn, knexStudentH_eq_pg db idParam⟩

/-- A store state in which two students rows share id 1, to exercise the
first-row selection when the store returns several rows. -/
def dupDb : Db :=
  Db.mk
    [Student.mk 1 "Sylvia" "Plath", Student.mk 1 "Anne" "Sexton"]
    []

/-- C9 witness: with two students rows of id 1 the student query returns two
rows and the handler shows the first of them, still responding HTTP 200. -/
theorem c9_witness :
    (pgIntCast "1" = some 1) ∧
    (dupDb.students.filter (fun s => s.id == (1 : Int))).length = 2 ∧
    (pgStudentH dupDb "1" = HandlerOut.mk
      (Except.ok (renderStudent
        (((dupDb.students.filter (fun s => s.id == (1 : Int))).map
          (fun s => StudentDetailRow.mk s.fname s.lname)).head?)
        ((dupDb.assignments.filter
            (fun a => a.student_id == (1 : Int))).map
          (fun a => AssignmentRow.mk a.title a.grade)))) [] dupDb ∧
      knexStudentH dupDb "1" = pgStudentH dupDb "1") ∧
    ((dupDb.students.filter (fun s => s.id == (1 : Int))).map
      (fun s => StudentDetailRow.mk s.fname s.lname)).head?
      = some (StudentDetailRow.mk "Sylvia" "Plath") :=
  ⟨by decide, by decide,
    c9_first_row_unconditional dupDb "1" 1 (by decide), by decide⟩

/-- C10: the raw id string is handed unchanged to both lookups of the detail
route, so they resolve against the same key: when the id casts to n, the
student the pg and knex handlers show comes from a students row with id n
and every assignment listed has student_id n; in the sequelize variant a
found student's id equals n and each fetched assignment has student_id n. -/
theorem c10_same_key_both_lookups (db : Db) (idParam : String) (n : Int)
    (hn : pgIntCast idParam = some n) :
    (∃ st asgs,
      pgStudentViewData db idParam = Except.ok ((st, asgs), db) ∧
      knexStudentViewData db idParam = pgStudentViewData db idParam ∧
      (∀ r, st = some r → ∃ s, s ∈ db.students ∧ s.id = n ∧
        r.fname = s.fname ∧ r.lname = s.lname) ∧
      (∀ r, r ∈ asgs → ∃ a, a ∈ db.assignments ∧ a.student_id = n ∧
        r.title = a.title ∧ r.grade = a.grade)) ∧
    (∀ s, execFindStudentById idParam db = Except.ok (some s, db) →
      s.id = n ∧
      ∀ r, r ∈ (execSelectAssignmentsByIntId s.id db).1 →
        ∃ a, a ∈ db.assignments ∧ a.student_id = n ∧
          r.title = a.title ∧ r.grade = a.grade) := by
  constructor
  · refine ⟨_, _, pgStudentViewData_some db idParam n hn,
      knexStudentViewData_eq_pg db idParam, ?_, ?_⟩
    · intro r hr
      have hrmem := head?_mem_of_eq_some _ _ hr
      rw [List.mem_map] at hrmem
      obtain ⟨s, hs, hrs⟩ := hrmem
      obtain ⟨hs1, hs2⟩ := List.mem_filter.mp hs
      exact ⟨s, hs1, beq_iff_eq.mp hs2, by rw [← hrs], by rw [← hrs]⟩
    · intro r hr
      rw [List.mem_map] at hr
      obtain ⟨a, ha, hra⟩ := hr
      obtain ⟨ha1, ha2⟩ := List.mem_filter.mp ha
      exact ⟨a, ha1, beq_iff_eq.mp ha2, by rw [← hra], by rw [← hra]⟩
  · intro s h
    rw [execFindStudentById_some idParam db n hn] at h
    simp only [Except.ok.injEq, Prod.mk.injEq] at h
    obtain ⟨hhead, -⟩ := h
    have hsmem := head?_mem_of_eq_some _ _ hhead
    have hsid : s.id = n := (mem_filter_student_id db n s hsmem).2
    refine ⟨hsid, ?_⟩
    intro r hr
    rw [hsid] at hr
    simp only [execSelectAssignmentsByIntId] at hr
    rw [List.mem_map] at hr
    obtain ⟨a, ha, hra⟩ := hr
    obtain ⟨ha1, ha2⟩ := List.mem_filter.mp ha
    exact ⟨a, ha1, beq_iff_eq.mp ha2, by rw [← hra], by rw [← hra]⟩

/-- C10 witness: for id 2 the pg and knex view data and the sequelize
lookups all resolve against key 2. -/
theorem c10_witness :
    (pgIntCast "2" = some 2) ∧
    ((∃ st asgs,
      pgStudentViewData seedDb "2" = Except.ok ((st, asgs), seedDb) ∧
      knexStudentViewData seedDb "2" = pgStudentViewData seedDb "2" ∧
      (∀ r, st = some r → ∃ s, s ∈ seedDb.students ∧ s.id = 2 ∧
        r.fname = s.fname ∧ r.lname = s.lname) ∧
      (∀ r, r ∈ asgs → ∃ a, a ∈ seedDb.assignments ∧ a.student_id = 2 ∧
        r.title = a.title ∧ r.grade = a.grade)) ∧
    (∀ s, execFindStudentById "2" seedDb = Except.ok (some s, seedDb) →
      s.id = 2 ∧
      ∀ r, r ∈ (execSelectAssignmentsByIntId s.id seedDb).1 →
        ∃ a, a ∈ seedDb.assignments ∧ a.student_id = 2 ∧
          r.title = a.title ∧ r.grade = a.grade)) :=
  ⟨by decide, c10_same_key_both_lookups seedDb "2" 2 (by decide)⟩

end ExpressDbs
